import Mathlib

/-!
Verification of the MioVo local bridge server (`src/server.js`) against its
natural-language specification.

The server is a WebSocket relay: each inbound JSON frame is parsed and
dispatched by its `type` field to a handler; handlers send correlated reply
messages (echoing the caller's `requestId`), make HTTP calls to the VOICEVOX /
RVC backends, write uploaded files to disk, and schedule timers that later
emit uncorrelated push messages.  We embed one inbound frame's processing as a
pure function from the frame plus an environment (the outcomes of the backend
HTTP calls and of the file-system write, and the generated UUIDs/timestamps)
to the list of observable events the handler performs, in order: messages
sent, backend calls made, file writes, scheduled timers.  Scheduled timers
are then expanded into the pushes they eventually emit, giving the full
per-connection trace caused by the frame.

All definitions are transcribed from `src/server.js`; line references are
given at each definition.
-/

namespace MioVo

/-! ## Wire data model (server.js lines 120-136, JSON messages) -/

/-- A speaker style, as in the mock catalog (server.js lines 152-154). -/
structure Style where
  id : Nat
  name : String
deriving DecidableEq

/-- A speaker catalog entry (server.js lines 148-171). -/
structure Speaker where
  speaker_id : Nat
  name : String
  speaker_uuid : String
  styles : List Style
deriving DecidableEq

/-- Payload of the generic passthrough request (`request.data.payload`,
server.js line 360). -/
structure PassPayload where
  endpoint : Option String := none
  method : Option String := none
  body : Option String := none
  params : Option String := none
deriving DecidableEq

/-- The fields a parsed `request.data` object may carry, across all message
types.  A JS object simply has or lacks each field, hence every field is an
`Option`. -/
structure ReqData where
  text : Option String := none
  speaker_id : Option Nat := none
  params : Option String := none
  fileName : Option String := none
  /-- the base64 data-URI, as a list of character codes -/
  fileData : Option (List Nat) := none
  fileSize : Option Nat := none
  modelName : Option String := none
  trainingDataIds : Option (List String) := none
  epochs : Option Int := none
  inputAudio : Option String := none
  modelId : Option String := none
  payload : Option PassPayload := none
deriving DecidableEq

/-- A parsed inbound request (server.js line 122). -/
structure Request where
  type : String
  requestId : Option String := none
  data : Option ReqData := none
deriving DecidableEq

/-- An inbound WebSocket frame: either valid JSON that parsed to a request,
or a frame on which `JSON.parse` threw (carrying the parse-error message). -/
inductive Frame where
  | malformed (emsg : String)
  | request (r : Request)
deriving DecidableEq

/-- Payload (`data` field) of an outbound message, one constructor per shape
the server builds.  A `mock := false` on `synthAudio` models the absence of
the `mock` field in the success reply. -/
inductive Payload where
  | empty
  | pong (timestamp : Nat)
  | speakers (catalog : List Speaker)
  | synthAudio (audio : String) (text : Option String) (speakerId : Option Nat) (mock : Bool)
  | uploadResp (recId : String) (fileName : Option String) (filePath : String)
      (fileSize : Option Nat) (status : String)
  | procComplete (fileName : Option String) (status : String) (duration : ℚ)
  | trainingStarted (modelId : String) (modelName : Option String) (status : String)
      (totalEpochs : Option Int)
  | trainingProgress (modelId : String) (currentEpoch : Int) (totalEpochs : Option Int)
  | trainingComplete (modelId : String) (modelName : Option String) (status : String)
      (modelPath : String)
  | conversion (convertedAudio : Option String) (modelId : Option String) (duration : ℚ)
  | passJson (data : String)
  | passAudio (audio : String) (contentType : String)
  | serviceStatus (voicevox : Bool) (rvc : Bool) (timestamp : String)
  | shutdownNote (text : String)
  | connectedNote (clientId : String) (text : String)
deriving DecidableEq

/-- An outbound JSON message.  `JSON.stringify` drops `undefined` fields, so
optional fields the server leaves unset are `none`. -/
structure OutMsg where
  type : String
  requestId : Option String := none
  error : Option String := none
  details : Option String := none
  payload : Payload := .empty
deriving DecidableEq

/-- A timer scheduled by a handler: the 2s upload-completion timeout
(server.js line 262) or the 1s training-progress interval (line 300). -/
inductive Timer where
  | uploadDone (fileName : Option String)
  | training (modelId : String) (modelName : Option String) (epochs : Option Int)
deriving DecidableEq

/-- An observable action of the server, in program order. -/
inductive Event where
  | send (m : OutMsg)
  | sendTo (conn : String) (m : OutMsg)
  | callBackend (desc : String)
  | writeFile (path : String) (bytes : List Nat)
  | schedule (t : Timer)
  | closeConn (conn : String)
  | stopAcceptWs
  | stopAcceptHttp
  | removeUploads (ok : Bool)
  | exitProcess
deriving DecidableEq

/-- Outcome of a failed backend HTTP call, as axios exposes it:
`error.response?.statusText`, `error.response?.data`, `error.message`
(server.js lines 423-424). -/
structure BErr where
  statusTextR : Option String := none
  dataR : Option String := none
  message : String := ""

/-- Successful passthrough response body: plain JSON data, or binary audio
bytes with an optional content-type header (server.js lines 403-412). -/
inductive PassResp where
  | jsonData (s : String)
  | binaryData (bytes : List Nat) (contentType : Option String)

/-- The environment of one frame's processing: outcomes of the backend calls
the handler may make, outcome of the file write, and the generated
UUIDs / timestamps / random duration. -/
structure Env where
  speakersResult : Except BErr (List Speaker)
  audioQueryResult : Except BErr String
  synthResult : Except BErr (List Nat)
  passResult : Except BErr PassResp
  writeResult : Option String
  uploadFileId : String
  uploadRecId : String
  trainModelId : String
  pongTime : Nat
  statusTime : String
  procDuration : ℚ

/-! ## JavaScript-semantics helpers -/

/-- `a || b` on a possibly-undefined / possibly-empty string (JS falsiness). -/
def jsOr (o : Option String) (dflt : String) : String :=
  match o with
  | none => dflt
  | some s => if s.isEmpty then dflt else s

/-- JS falsiness test for a possibly-undefined string (`!endpoint`). -/
def jsFalsy (o : Option String) : Bool :=
  match o with
  | none => true
  | some s => s.isEmpty

/-- A JS template literal `${x}` of a possibly-undefined string. -/
def jsTemplate (o : Option String) : String :=
  match o with
  | none => "undefined"
  | some s => s

/-- JS `String.prototype.split(',')` on a list of character codes
(`,` is code 44), as used on the data URI (server.js line 245). -/
def splitOnComma : List Nat → List (List Nat)
  | [] => [[]]
  | c :: rest =>
    match splitOnComma rest with
    | [] => if c = 44 then [[], []] else [[c]]
    | p :: ps => if c = 44 then [] :: p :: ps else (c :: p) :: ps

/-! ## Base64 (Node `Buffer.from(s, 'base64')` / `buf.toString('base64')`)

The upload handler decodes the part of the data URI after the comma with
`Buffer.from(_, 'base64')` (server.js line 245); the synthesis handlers
encode audio bytes with `.toString('base64')` (lines 209, 407).  We model
both over lists of byte values / character codes, with the standard
alphabet and `=` (code 61) padding; the decoder skips non-alphabet
characters, as Node does. -/

/-- The base64 alphabet: sextet value to character code. -/
def b64chr (n : Nat) : Nat :=
  if n < 26 then 65 + n
  else if n < 52 then 97 + (n - 26)
  else if n < 62 then 48 + (n - 52)
  else if n = 62 then 43
  else 47

/-- Character code back to sextet value; `none` for non-alphabet characters
(including the `=` pad), which the decoder skips. -/
def b64val (c : Nat) : Option Nat :=
  if 65 ≤ c ∧ c ≤ 90 then some (c - 65)
  else if 97 ≤ c ∧ c ≤ 122 then some (c - 97 + 26)
  else if 48 ≤ c ∧ c ≤ 57 then some (c - 48 + 52)
  else if c = 43 then some 62
  else if c = 47 then some 63
  else none

/-- Base64-encode a byte list into character codes (with `=` padding). -/
def base64Encode : List Nat → List Nat
  | [] => []
  | [x] => [b64chr (x / 4), b64chr (x % 4 * 16), 61, 61]
  | [x, y] => [b64chr (x / 4), b64chr (x % 4 * 16 + y / 16), b64chr (y % 16 * 4), 61]
  | x :: y :: z :: rest =>
      b64chr (x / 4) :: b64chr (x % 4 * 16 + y / 16) :: b64chr (y % 16 * 4 + z / 64) ::
        b64chr (z % 64) :: base64Encode rest

/-- Regroup a list of sextet values into bytes (4 sextets to 3 bytes, with
truncated final groups from padding). -/
def b64group : List Nat → List Nat
  | a :: b :: c :: d :: rest =>
      (a * 4 + b / 16) :: (b % 16 * 16 + c / 4) :: (c % 4 * 64 + d) :: b64group rest
  | [a, b, c] => [a * 4 + b / 16, b % 16 * 16 + c / 4]
  | [a, b] => [a * 4 + b / 16]
  | _ => []

/-- Base64-decode character codes into bytes, skipping non-alphabet
characters (Node's lenient decoder). -/
def base64Decode (s : List Nat) : List Nat :=
  b64group (s.filterMap b64val)

/-- Render character codes as a Lean string (for the data-URI strings the
server builds). -/
def stringOfCodes (l : List Nat) : String :=
  String.mk (l.map Char.ofNat)

/-! ## Constants from the source -/

/-- Default synthesis-backend base URL (server.js line 22). -/
def VOICEVOX_URL : String := "http://localhost:50021"

/-- The fixed silent-WAV fallback used when synthesis fails
(server.js line 224). -/
def mockWavB64 : String :=
  "UklGRiQAAABXQVZFZm10IBAAAAABAAEAQB8AAAB9AAACABAAZGF0YQAAAAA="

/-- The fixed fallback speaker catalog (server.js lines 147-172). -/
def mockSpeakersCatalog : List Speaker :=
  [ { speaker_id := 0, name := "Default", speaker_uuid := "default-uuid",
      styles := [{ id := 0, name := "ノーマル" }] },
    { speaker_id := 1, name := "Female", speaker_uuid := "female-uuid",
      styles := [{ id := 1, name := "ノーマル" }] },
    { speaker_id := 2, name := "Male", speaker_uuid := "male-uuid",
      styles := [{ id := 2, name := "ノーマル" }] } ]

/-- The conversion reply's fixed duration, `3.5` in the source
(server.js line 345). -/
def convDuration : ℚ := 7 / 2

/-- The engine's TypeError message when a handler reads a field of an
undefined `request.data` (exact wording is engine-specific; the claims never
inspect it). -/
def undefinedDataMsg : String := "Cannot read properties of undefined"

/-- The engine's TypeError message for `undefined.split` (upload handler with
missing `fileData`). -/
def undefinedSplitMsg : String := "Cannot read properties of undefined (reading split)"

/-- Node's error message for `Buffer.from(undefined, 'base64')` (upload
handler when the data URI has no comma). -/
def badBufferMsg : String := "The first argument must be of type string"

/-- Stored path of an upload: `path.join(__dirname, 'uploads',
uuid ++ '_' ++ fileName)` (server.js line 242); the `__dirname` prefix is
elided. -/
def storePath (env : Env) (fileName : String) : String :=
  "uploads/" ++ env.uploadFileId ++ "_" ++ fileName

/-! ## The training-progress interval (server.js lines 298-325)

Each tick adds 10 to `currentEpoch`, emits a progress push carrying it, and
stops (emitting the completion push) once `currentEpoch >= epochs`.
`trainingEmits current epochs` is the list of `currentEpoch` values the
interval emits, starting from `current` (the handler starts it at 0). -/

def trainingEmits (current epochs : Int) : List Int :=
  if epochs ≤ current + 10 then [current + 10]
  else (current + 10) :: trainingEmits (current + 10) epochs
termination_by (epochs - current).toNat
decreasing_by
  simp_wf
  omega

/-! ## Messages and timers -/

/-- Pushes a timer eventually emits.  `none` means the timer never stops:
with `epochs` undefined the interval's stop test `currentEpoch >= epochs`
is always false in JS, so progress pushes never end. -/
def timerPushes (env : Env) : Timer → Option (List OutMsg)
  | .uploadDone fileName =>
      some [{ type := "rvc-processing-complete",
              payload := .procComplete fileName "ready" env.procDuration }]
  | .training modelId modelName epochsOpt =>
      match epochsOpt with
      | some epochs =>
          some ((trainingEmits 0 epochs).map (fun v =>
              { type := "rvc-training-progress",
                payload := .trainingProgress modelId v (some epochs) }) ++
            [{ type := "rvc-training-complete",
               payload := .trainingComplete modelId modelName "ready"
                 ("models/" ++ modelId ++ ".pth") }])
      | none => none

/-- The periodic service-status broadcast message (server.js lines 82-89). -/
def serviceStatusMsg (voicevox rvc : Bool) (ts : String) : OutMsg :=
  { type := "service-status", payload := .serviceStatus voicevox rvc ts }

/-- The shutdown push (server.js lines 464-467). -/
def serverShutdownMsg : OutMsg :=
  { type := "server-shutdown",
    payload := .shutdownNote "サーバーがシャットダウンしています" }

/-- The message types the server sends without a request correlation
(push messages, per the spec's list). -/
def pushTypes : List String :=
  ["service-status", "server-shutdown", "rvc-training-progress",
   "rvc-training-complete", "rvc-processing-complete"]

/-- The mock synthesis reply sent when a synthesis backend call fails
(server.js lines 226-235). -/
def mockSynthMsg (r : Request) (d : ReqData) : OutMsg :=
  { type := "voicevox-synthesis-response", requestId := r.requestId,
    payload := .synthAudio ("data:audio/wav;base64," ++ mockWavB64)
      d.text d.speaker_id true }

/-! ## The request router (server.js lines 120-444)

`handleRequest` is the body of the `switch (request.type)`.  Each case's
`try { ... } catch` is modelled by matching on the data it reads and on the
environment's backend/write outcomes.  A `.error msg` result models an
exception that escapes the case (only the synthesis case can do this: its
`catch` block itself reads `request.data.text`, which re-throws when `data`
is undefined) and is converted by the outer `catch` into an error reply
without a `requestId`. -/

def handlePass (env : Env) (r : Request) (pl : PassPayload) : Except String (List Event) :=
  if jsFalsy pl.endpoint then
    .ok [.send { type := "error", error := some "エンドポイントが指定されていません",
                 requestId := r.requestId }]
  else
    match env.passResult with
    | .error e =>
        .ok [.callBackend ((jsOr pl.method "GET").toUpper ++ " " ++ VOICEVOX_URL ++
               jsTemplate pl.endpoint),
             .send { type := "error",
                     error := some ("VOICEVOX APIエラー: " ++ jsOr e.statusTextR e.message),
                     details := e.dataR, requestId := r.requestId }]
    | .ok (.jsonData s) =>
        .ok [.callBackend ((jsOr pl.method "GET").toUpper ++ " " ++ VOICEVOX_URL ++
               jsTemplate pl.endpoint),
             .send { type := "voicevox_request-response", requestId := r.requestId,
                     payload := .passJson s }]
    | .ok (.binaryData bytes ct) =>
        .ok [.callBackend ((jsOr pl.method "GET").toUpper ++ " " ++ VOICEVOX_URL ++
               jsTemplate pl.endpoint),
             .send { type := "voicevox_request-response", requestId := r.requestId,
                     payload := .passAudio
                       ("data:audio/wav;base64," ++ stringOfCodes (base64Encode bytes))
                       (ct.getD "audio/wav") }]

def handleRequest (env : Env) (r : Request) : Except String (List Event) :=
  if r.type = "ping" then
    .ok [.send { type := "pong", requestId := r.requestId, payload := .pong env.pongTime }]
  else if r.type = "voicevox-speakers" then
    match env.speakersResult with
    | .ok cat =>
        .ok [.callBackend ("GET " ++ VOICEVOX_URL ++ "/speakers"),
             .send { type := "voicevox-speakers-response", requestId := r.requestId,
                     payload := .speakers cat }]
    | .error _ =>
        .ok [.callBackend ("GET " ++ VOICEVOX_URL ++ "/speakers"),
             .send { type := "voicevox-speakers-response", requestId := r.requestId,
                     payload := .speakers mockSpeakersCatalog }]
  else if r.type = "voicevox-synthesis" then
    match r.data with
    | none => .error undefinedDataMsg
    | some d =>
      match env.audioQueryResult with
      | .error _ =>
          .ok [.callBackend ("POST " ++ VOICEVOX_URL ++ "/audio_query"),
               .send (mockSynthMsg r d)]
      | .ok _q =>
        match env.synthResult with
        | .error _ =>
            .ok [.callBackend ("POST " ++ VOICEVOX_URL ++ "/audio_query"),
                 .callBackend ("POST " ++ VOICEVOX_URL ++ "/synthesis"),
                 .send (mockSynthMsg r d)]
        | .ok bytes =>
            .ok [.callBackend ("POST " ++ VOICEVOX_URL ++ "/audio_query"),
                 .callBackend ("POST " ++ VOICEVOX_URL ++ "/synthesis"),
                 .send { type := "voicevox-synthesis-response", requestId := r.requestId,
                         payload := .synthAudio
                           ("data:audio/wav;base64," ++ stringOfCodes (base64Encode bytes))
                           d.text d.speaker_id false }]
  else if r.type = "rvc-upload-training-data" then
    match r.data with
    | none =>
        .ok [.send { type := "error",
                     error := some ("ファイルアップロードエラー: " ++ undefinedDataMsg),
                     requestId := r.requestId }]
    | some d =>
      match d.fileData with
      | none =>
          .ok [.send { type := "error",
                       error := some ("ファイルアップロードエラー: " ++ undefinedSplitMsg),
                       requestId := r.requestId }]
      | some fd =>
        match (splitOnComma fd)[1]? with
        | none =>
            .ok [.send { type := "error",
                         error := some ("ファイルアップロードエラー: " ++ badBufferMsg),
                         requestId := r.requestId }]
        | some content =>
          match env.writeResult with
          | some werr =>
              .ok [.send { type := "error",
                           error := some ("ファイルアップロードエラー: " ++ werr),
                           requestId := r.requestId }]
          | none =>
              .ok [.writeFile (storePath env (jsTemplate d.fileName)) (base64Decode content),
                   .send { type := "rvc-upload-response", requestId := r.requestId,
                           payload := .uploadResp env.uploadRecId d.fileName
                             (storePath env (jsTemplate d.fileName)) d.fileSize "processing" },
                   .schedule (.uploadDone d.fileName)]
  else if r.type = "rvc-start-training" then
    match r.data with
    | none =>
        .ok [.send { type := "error",
                     error := some ("トレーニング開始エラー: " ++ undefinedDataMsg),
                     requestId := r.requestId }]
    | some d =>
        .ok [.send { type := "rvc-training-started", requestId := r.requestId,
                     payload := .trainingStarted env.trainModelId d.modelName "training"
                       d.epochs },
             .schedule (.training env.trainModelId d.modelName d.epochs)]
  else if r.type = "rvc-voice-conversion" then
    match r.data with
    | none =>
        .ok [.send { type := "error",
                     error := some ("音声変換エラー: " ++ undefinedDataMsg),
                     requestId := r.requestId }]
    | some d =>
        .ok [.send { type := "rvc-conversion-response", requestId := r.requestId,
                     payload := .conversion d.inputAudio d.modelId convDuration }]
  else if r.type = "voicevox_request" then
    match r.data with
    | none =>
        .ok [.send { type := "error",
                     error := some ("VOICEVOX APIエラー: " ++ undefinedDataMsg),
                     requestId := r.requestId }]
    | some d => handlePass env r (d.payload.getD {})
  else
    .ok [.send { type := "error", error := some ("Unknown request type: " ++ r.type),
                 requestId := r.requestId }]

/-- One inbound frame through the outer message handler (server.js lines
120-444): parse failure or an exception escaping a case reaches the outer
`catch`, which sends a single error reply without a `requestId`
(lines 437-443). -/
def handleFrame (env : Env) (f : Frame) : List Event :=
  match f with
  | .malformed emsg =>
      [.send { type := "error", error := some ("メッセージ処理エラー: " ++ emsg) }]
  | .request r =>
    match handleRequest env r with
    | .ok evs => evs
    | .error emsg =>
        [.send { type := "error", error := some ("メッセージ処理エラー: " ++ emsg) }]

/-- Expand a scheduled timer into the pushes it eventually emits.  A timer
that never stops (training with undefined `epochs`) is left in the trace as
its `schedule` marker. -/
def expandEvent (env : Env) (e : Event) : List Event :=
  match e with
  | .schedule t =>
    match timerPushes env t with
    | some ms => ms.map Event.send
    | none => [.schedule t]
  | _ => [e]

/-- The full per-connection trace caused by one inbound frame: the handler's
immediate events followed by the pushes of the timers it scheduled. -/
def traceOf (env : Env) (f : Frame) : List Event :=
  (handleFrame env f).flatMap (expandEvent env)

/-- The messages sent on the requesting connection, in order. -/
def sendsOf : List Event → List OutMsg
  | [] => []
  | .send m :: t => m :: sendsOf t
  | _ :: t => sendsOf t

/-- What reading a path back from storage yields after a trace's writes
(last write wins). -/
def readStorage (tr : List Event) (p : String) : Option (List Nat) :=
  tr.foldl (fun acc e =>
    match e with
    | .writeFile q bytes => if q = p then some bytes else acc
    | _ => acc) none

/-- The SIGINT shutdown sequence (server.js lines 459-480): for each
registered connection, send the shutdown push then close it; then close the
WebSocket server and the HTTP server; then best-effort delete the uploads
directory (`rmOk` records whether the deletion succeeded — the `catch {}`
ignores failure either way); then exit. -/
def shutdownTrace (clients : List String) (rmOk : Bool) : List Event :=
  clients.flatMap (fun c => [.sendTo c serverShutdownMsg, .closeConn c]) ++
    [.stopAcceptWs, .stopAcceptHttp, .removeUploads rmOk, .exitProcess]

/-! ## Concrete witness inputs -/

/-- A backend-unreachable error (axios with no HTTP response). -/
def err0 : BErr := { statusTextR := none, dataR := none, message := "connect ECONNREFUSED" }

/-- A backend HTTP-level error with status text and an error body. -/
def err404 : BErr :=
  { statusTextR := some "Not Found", dataR := some "detail-body",
    message := "Request failed with status code 404" }

/-- A concrete environment in which every backend call fails. -/
def env0 : Env :=
  { speakersResult := .error err0, audioQueryResult := .error err0,
    synthResult := .error err0, passResult := .error err404,
    writeResult := none, uploadFileId := "f0", uploadRecId := "u0",
    trainModelId := "m0", pongTime := 0, statusTime := "t0", procDuration := 0 }

def reqPing : Request := { type := "ping", requestId := some "p1" }

def dTrain0 : ReqData := { modelName := some "m", epochs := some 0 }

def reqTrain0 : Request :=
  { type := "rvc-start-training", requestId := some "r1", data := some dTrain0 }

def dTrain25 : ReqData := { modelName := some "m", epochs := some 25 }

def reqTrain25 : Request :=
  { type := "rvc-start-training", requestId := some "r2", data := some dTrain25 }

def dSynth : ReqData := { text := some "こんにちは", speaker_id := some 3 }

def reqSynth : Request :=
  { type := "voicevox-synthesis", requestId := some "s1", data := some dSynth }

def reqSpeakers : Request := { type := "voicevox-speakers", requestId := some "v1" }

def dConv : ReqData := { inputAudio := some "AUDIO", modelId := some "model-7" }

def reqConv : Request :=
  { type := "rvc-voice-conversion", requestId := some "c1", data := some dConv }

def dPassMissing : ReqData := { payload := some {} }

def reqPassMissing : Request :=
  { type := "voicevox_request", requestId := some "q1", data := some dPassMissing }

def dPass : ReqData := { payload := some { endpoint := some "/version" } }

def reqPass : Request :=
  { type := "voicevox_request", requestId := some "q2", data := some dPass }

def dUp : ReqData :=
  { fileName := some "a.wav", fileData := some ([] ++ 44 :: base64Encode [1, 2, 3]),
    fileSize := some 3 }

def reqUp : Request :=
  { type := "rvc-upload-training-data", requestId := some "u1", data := some dUp }

/-- The shape invariant of every event the router produces for a parsed
request: only sends (whose `requestId` is the request's or absent, absent on
push types), backend calls, file writes and timer markers — never a
connection close, listener stop, storage removal or process exit. -/
def routedEventOk (r : Request) : Event → Prop
  | .send m =>
      (m.requestId = none ∨ m.requestId = r.requestId) ∧
        (m.type ∈ pushTypes → m.requestId = none)
  | .callBackend _ => True
  | .writeFile _ _ => True
  | .schedule _ => True
  | _ => False

/-- The `currentEpoch` value carried by a training-progress push (`none` for
any other message), used to read the emitted progress sequence off a trace. -/
def progressEpoch (m : OutMsg) : Option Int :=
  match m.payload with
  | .trainingProgress _ v _ => some v
  | _ => none

/-! # Theorems -/

/-! ## Base64 round trip -/

theorem b64val_b64chr : ∀ n : Nat, n < 64 → b64val (b64chr n) = some n := by decide

theorem b64val_pad : b64val 61 = none := by decide

theorem base64_roundtrip : ∀ l : List Nat, (∀ b ∈ l, b < 256) →
    base64Decode (base64Encode l) = l := by
  intro l
  induction l using base64Encode.induct with
  | case1 => intro _; rfl
  | case2 x =>
      intro h
      have hx : x < 256 := h x (by simp)
      have h1 : b64val (b64chr (x / 4)) = some (x / 4) := b64val_b64chr _ (by omega)
      have h2 : b64val (b64chr (x % 4 * 16)) = some (x % 4 * 16) := b64val_b64chr _ (by omega)
      simp only [base64Encode, base64Decode, List.filterMap_cons, h1, h2, b64val_pad,
        List.filterMap_nil, b64group, List.cons.injEq, and_true]
      omega
  | case3 x y =>
      intro h
      have hx : x < 256 := h x (by simp)
      have hy : y < 256 := h y (by simp)
      have h1 : b64val (b64chr (x / 4)) = some (x / 4) := b64val_b64chr _ (by omega)
      have h2 : b64val (b64chr (x % 4 * 16 + y / 16)) = some (x % 4 * 16 + y / 16) :=
        b64val_b64chr _ (by omega)
      have h3 : b64val (b64chr (y % 16 * 4)) = some (y % 16 * 4) := b64val_b64chr _ (by omega)
      simp only [base64Encode, base64Decode, List.filterMap_cons, h1, h2, h3, b64val_pad,
        List.filterMap_nil, b64group, List.cons.injEq, and_true]
      omega
  | case4 x y z rest ih =>
      intro h
      have hx : x < 256 := h x (by simp)
      have hy : y < 256 := h y (by simp)
      have hz : z < 256 := h z (by simp)
      have hrest : ∀ b ∈ rest, b < 256 := fun b hb => h b (by simp [hb])
      have h1 : b64val (b64chr (x / 4)) = some (x / 4) := b64val_b64chr _ (by omega)
      have h2 : b64val (b64chr (x % 4 * 16 + y / 16)) = some (x % 4 * 16 + y / 16) :=
        b64val_b64chr _ (by omega)
      have h3 : b64val (b64chr (y % 16 * 4 + z / 64)) = some (y % 16 * 4 + z / 64) :=
        b64val_b64chr _ (by omega)
      have h4 : b64val (b64chr (z % 64)) = some (z % 64) := b64val_b64chr _ (by omega)
      have htail := ih hrest
      simp only [base64Decode] at htail
      simp only [base64Encode, base64Decode, List.filterMap_cons, h1, h2, h3, h4,
        b64group, List.cons.injEq]
      exact ⟨by omega, by omega, by omega, htail⟩

theorem b64chr_ne_44 (n : Nat) : b64chr n ≠ 44 := by
  unfold b64chr
  split_ifs <;> omega

theorem comma_notin_base64Encode : ∀ l, 44 ∉ base64Encode l := by
  intro l
  induction l using base64Encode.induct with
  | case1 => simp [base64Encode]
  | case2 x =>
      simp only [base64Encode, List.mem_cons, List.not_mem_nil, or_false]
      rintro (h | h | h | h) <;> first
        | exact b64chr_ne_44 _ h.symm
        | omega
  | case3 x y =>
      simp only [base64Encode, List.mem_cons, List.not_mem_nil, or_false]
      rintro (h | h | h | h) <;> first
        | exact b64chr_ne_44 _ h.symm
        | omega
  | case4 x y z rest ih =>
      simp only [base64Encode, List.mem_cons]
      rintro (h | h | h | h | h) <;> first
        | exact b64chr_ne_44 _ h.symm
        | exact ih h

/-! ## splitOnComma -/

theorem splitOnComma_ne_nil : ∀ l, splitOnComma l ≠ [] := by
  intro l
  induction l with
  | nil => simp [splitOnComma]
  | cons c rest ih =>
      simp only [splitOnComma]
      split <;> split <;> simp

theorem splitOnComma_of_not_mem : ∀ l, 44 ∉ l → splitOnComma l = [l] := by
  intro l
  induction l with
  | nil => intro _; rfl
  | cons c rest ih =>
      intro h
      have hc : c ≠ 44 := by
        intro hc; exact h (by simp [hc])
      have hrest : 44 ∉ rest := fun hm => h (by simp [hm])
      simp [splitOnComma, ih hrest, hc]

theorem splitOnComma_split (p q : List Nat) (hp : 44 ∉ p) (hq : 44 ∉ q) :
    splitOnComma (p ++ 44 :: q) = [p, q] := by
  induction p with
  | nil => simp [splitOnComma, splitOnComma_of_not_mem q hq]
  | cons c p' ih =>
      have hc : c ≠ 44 := by
        intro hc; exact hp (by simp [hc])
      have hp' : 44 ∉ p' := fun hm => hp (by simp [hm])
      simp [splitOnComma, ih hp', hc]

/-! ## trainingEmits -/

theorem trainingEmits_ne_nil (c e : Int) : trainingEmits c e ≠ [] := by
  unfold trainingEmits
  split <;> simp

theorem trainingEmits_head (c e : Int) : (trainingEmits c e).head? = some (c + 10) := by
  unfold trainingEmits
  split <;> simp

theorem trainingEmits_of_le (c e : Int) (h : e ≤ c + 10) : trainingEmits c e = [c + 10] := by
  rw [trainingEmits, if_pos h]

theorem trainingEmits_chain (c e : Int) :
    (trainingEmits c e).Chain' (fun a b => b = a + 10) := by
  induction c, e using trainingEmits.induct with
  | case1 c e h =>
      rw [trainingEmits, if_pos h]
      simp
  | case2 c e h ih =>
      rw [trainingEmits, if_neg h]
      rw [List.chain'_cons']
      refine ⟨?_, ih⟩
      intro y hy
      rw [trainingEmits_head] at hy
      simp at hy
      omega

theorem trainingEmits_last : ∀ c e : Int, c < e →
    ∃ v, (trainingEmits c e).getLast? = some v ∧ e ≤ v ∧ v < e + 10 := by
  intro c e
  induction c, e using trainingEmits.induct with
  | case1 c e h =>
      intro hce
      exact ⟨c + 10, by rw [trainingEmits, if_pos h]; rfl, h, by omega⟩
  | case2 c e h ih =>
      intro _
      obtain ⟨v, hv, h1, h2⟩ := ih (by omega)
      refine ⟨v, ?_, h1, h2⟩
      rw [trainingEmits, if_neg h]
      rcases htl : trainingEmits (c + 10) e with _ | ⟨x, l⟩
      · exact absurd htl (trainingEmits_ne_nil _ _)
      · rw [htl] at hv
        rw [List.getLast?_cons_cons]
        exact hv

theorem trainingEmits_dvd : ∀ c e : Int, (10 : Int) ∣ c →
    ∀ v ∈ trainingEmits c e, (10 : Int) ∣ v := by
  intro c e
  induction c, e using trainingEmits.induct with
  | case1 c e h =>
      intro hc v hv
      rw [trainingEmits, if_pos h] at hv
      simp at hv
      omega
  | case2 c e h ih =>
      intro hc v hv
      rw [trainingEmits, if_neg h] at hv
      rcases List.mem_cons.mp hv with h' | h'
      · omega
      · exact ih (by omega) v h'

theorem trainingEmits_eval_25 : trainingEmits 0 25 = [10, 20, 30] := by
  rw [trainingEmits]
  norm_num
  rw [trainingEmits]
  norm_num
  rw [trainingEmits]
  norm_num

/-! ## sendsOf helpers -/

theorem sendsOf_append : ∀ l₁ l₂ : List Event, sendsOf (l₁ ++ l₂) = sendsOf l₁ ++ sendsOf l₂ := by
  intro l₁ l₂
  induction l₁ with
  | nil => rfl
  | cons e t ih => cases e <;> simp [sendsOf, ih]

theorem sendsOf_map_send (ms : List OutMsg) : sendsOf (ms.map Event.send) = ms := by
  induction ms with
  | nil => rfl
  | cons m t ih => simp [sendsOf, ih]

theorem sendsOf_map_send_comp {α : Type} (f : α → OutMsg) (l : List α) :
    sendsOf (l.map (Event.send ∘ f)) = l.map f := by
  induction l with
  | nil => rfl
  | cons x t ih => simp [sendsOf, ih]

theorem mem_sendsOf {m : OutMsg} : ∀ {l : List Event}, m ∈ sendsOf l ↔ Event.send m ∈ l := by
  intro l
  induction l with
  | nil => simp [sendsOf]
  | cons e t ih => cases e <;> simp [sendsOf, ih]

/-! ## Trace shape of the start-training handler -/

theorem sends_training (env : Env) (r : Request) (d : ReqData) (e : Int)
    (h1 : r.type = "rvc-start-training") (h2 : r.data = some d) (h3 : d.epochs = some e) :
    sendsOf (traceOf env (.request r)) =
      { type := "rvc-training-started", requestId := r.requestId,
        payload := .trainingStarted env.trainModelId d.modelName "training" (some e) } ::
      ((trainingEmits 0 e).map (fun v =>
          ({ type := "rvc-training-progress",
             payload := .trainingProgress env.trainModelId v (some e) } : OutMsg)) ++
        [{ type := "rvc-training-complete",
           payload := .trainingComplete env.trainModelId d.modelName "ready"
             ("models/" ++ env.trainModelId ++ ".pth") }]) := by
  simp [traceOf, handleFrame, handleRequest, h1, h2, h3, expandEvent, timerPushes,
    sendsOf, sendsOf_append, sendsOf_map_send, sendsOf_map_send_comp]

/-! ## Router event invariant -/

theorem expandEvent_ok (env : Env) (r : Request) (e : Event) (h : routedEventOk r e) :
    ∀ ev ∈ expandEvent env e, routedEventOk r ev := by
  cases e with
  | schedule t =>
      cases t with
      | uploadDone fn =>
          simp [expandEvent, timerPushes, routedEventOk, pushTypes]
      | training mid mname eo =>
          cases eo with
          | none => simp [expandEvent, timerPushes, routedEventOk]
          | some ep =>
              simp only [expandEvent, timerPushes, List.map_append, List.map_map]
              intro ev hev
              rcases List.mem_append.mp hev with h1 | h1
              · obtain ⟨v, hv, rfl⟩ := List.mem_map.mp h1
                simp [routedEventOk, pushTypes]
              · simp only [List.map_cons, List.map_nil, List.mem_cons, List.not_mem_nil,
                  or_false] at h1
                subst h1
                simp [routedEventOk, pushTypes]
  | send m => simpa [expandEvent] using h
  | sendTo c m => simpa [expandEvent] using h
  | callBackend d => simp [expandEvent, routedEventOk]
  | writeFile p b => simp [expandEvent, routedEventOk]
  | closeConn c => simpa [expandEvent] using h
  | stopAcceptWs => simpa [expandEvent] using h
  | stopAcceptHttp => simpa [expandEvent] using h
  | removeUploads ok => simpa [expandEvent] using h
  | exitProcess => simpa [expandEvent] using h

theorem handleRequest_ok (env : Env) (r : Request) :
    ∀ evs, handleRequest env r = .ok evs → ∀ ev ∈ evs, routedEventOk r ev := by
  intro evs heq
  rw [handleRequest] at heq
  unfold handlePass at heq
  repeat' split at heq
  all_goals first
    | (injection heq with h
       subst h
       simp [routedEventOk, pushTypes, mockSynthMsg, List.forall_mem_cons])
    | injection heq

theorem routed_ok (env : Env) (r : Request) :
    ∀ ev ∈ traceOf env (.request r), routedEventOk r ev := by
  intro ev hev
  simp only [traceOf, handleFrame] at hev
  rcases heq : handleRequest env r with emsg | evs
  · rw [heq] at hev
    simp only [List.flatMap_cons, List.flatMap_nil, expandEvent, List.append_nil,
      List.mem_cons, List.not_mem_nil, or_false] at hev
    subst hev
    simp [routedEventOk, pushTypes]
  · rw [heq] at hev
    rw [List.mem_flatMap] at hev
    obtain ⟨e0, he0, hev⟩ := hev
    exact expandEvent_ok env r e0 (handleRequest_ok env r evs heq e0 he0) ev hev

/-! # Claims -/

/-- Claim C1, as stated, is false on the code: the `rvc-start-training`
handler never validates `epochs`.  At the concrete request `reqTrain0`
(epochs = 0, requestId "r1") the connection receives no error reply at all,
and training-progress and training-complete pushes do follow. -/
theorem c1_counterexample :
    (∀ m ∈ sendsOf (traceOf env0 (.request reqTrain0)), m.type ≠ "error") ∧
    (∃ m ∈ sendsOf (traceOf env0 (.request reqTrain0)),
        m.type = "rvc-training-progress") ∧
    (∃ m ∈ sendsOf (traceOf env0 (.request reqTrain0)),
        m.type = "rvc-training-complete") := by
  have h := sends_training env0 reqTrain0 dTrain0 0 rfl rfl rfl
  rw [trainingEmits_of_le 0 0 (by norm_num)] at h
  rw [h]
  refine ⟨?_, ?_, ?_⟩ <;> simp

/-- Claim C1 (amended): for every start-training request with epochs = e ≤ 0
and a data object present, the router performs no validation and produces no
error reply: it sends a training-started reply echoing the requestId, then
exactly one training-progress push with currentEpoch = 10, then exactly one
training-complete push. -/
theorem c1_amended (env : Env) (r : Request) (d : ReqData) (e : Int)
    (h1 : r.type = "rvc-start-training") (h2 : r.data = some d)
    (h3 : d.epochs = some e) (he : e ≤ 0) :
    sendsOf (traceOf env (.request r)) =
      [{ type := "rvc-training-started", requestId := r.requestId,
         payload := .trainingStarted env.trainModelId d.modelName "training" (some e) },
       { type := "rvc-training-progress",
         payload := .trainingProgress env.trainModelId 10 (some e) },
       { type := "rvc-training-complete",
         payload := .trainingComplete env.trainModelId d.modelName "ready"
           ("models/" ++ env.trainModelId ++ ".pth") }] ∧
    ∀ m ∈ sendsOf (traceOf env (.request r)), m.type ≠ "error" := by
  have h := sends_training env r d e h1 h2 h3
  rw [trainingEmits_of_le 0 e (by omega)] at h
  rw [h]
  constructor
  · norm_num
  · simp

/-- Witness for C1 (amended) at epochs = 0. -/
theorem c1_amended_witness :
    reqTrain0.type = "rvc-start-training" ∧ reqTrain0.data = some dTrain0 ∧
    dTrain0.epochs = some (0 : Int) ∧ (0 : Int) ≤ 0 ∧
    (sendsOf (traceOf env0 (.request reqTrain0)) =
      [{ type := "rvc-training-started", requestId := reqTrain0.requestId,
         payload := .trainingStarted env0.trainModelId dTrain0.modelName "training"
           (some 0) },
       { type := "rvc-training-progress",
         payload := .trainingProgress env0.trainModelId 10 (some 0) },
       { type := "rvc-training-complete",
         payload := .trainingComplete env0.trainModelId dTrain0.modelName "ready"
           ("models/" ++ env0.trainModelId ++ ".pth") }] ∧
     ∀ m ∈ sendsOf (traceOf env0 (.request reqTrain0)), m.type ≠ "error") :=
  ⟨rfl, rfl, rfl, le_refl 0,
   c1_amended env0 reqTrain0 dTrain0 0 rfl rfl rfl (le_refl 0)⟩

/-- Claim C2, as stated, is false on the code: the final emitted
`currentEpoch` is not clamped to E.  At epochs = 25 the emitted progress
values are 10, 20, 30: the final emitted value is 30, which exceeds 25. -/
theorem c2_counterexample :
    (sendsOf (traceOf env0 (.request reqTrain25))).filterMap progressEpoch =
      [10, 20, 30] ∧ ((30 : Int) > 25 ∧ (30 : Int) ≠ 25) := by
  have h := sends_training env0 reqTrain25 dTrain25 25 rfl rfl rfl
  rw [trainingEmits_eval_25] at h
  rw [h]
  refine ⟨?_, by norm_num, by norm_num⟩
  simp [progressEpoch]

/-- Claim C2 (amended): for epochs = E > 0 the progress pushes strictly
increase `currentEpoch` in fixed steps of 10 starting at 10; every emitted
value is a multiple of 10; the final emitted value v is the first multiple
of 10 at or above E (E ≤ v < E + 10 — so it equals E exactly when E is a
multiple of 10 and overshoots otherwise); after it, exactly one
training-complete push is sent, and no training-progress push follows the
completion push (the completion is the last element of the trace). -/
theorem c2_amended (env : Env) (r : Request) (d : ReqData) (e : Int)
    (h1 : r.type = "rvc-start-training") (h2 : r.data = some d)
    (h3 : d.epochs = some e) (he : 0 < e) :
    sendsOf (traceOf env (.request r)) =
      { type := "rvc-training-started", requestId := r.requestId,
        payload := .trainingStarted env.trainModelId d.modelName "training" (some e) } ::
      ((trainingEmits 0 e).map (fun v =>
          ({ type := "rvc-training-progress",
             payload := .trainingProgress env.trainModelId v (some e) } : OutMsg)) ++
        [{ type := "rvc-training-complete",
           payload := .trainingComplete env.trainModelId d.modelName "ready"
             ("models/" ++ env.trainModelId ++ ".pth") }]) ∧
    (trainingEmits 0 e).head? = some 10 ∧
    (trainingEmits 0 e).Chain' (fun a b => b = a + 10) ∧
    (∀ v ∈ trainingEmits 0 e, (10 : Int) ∣ v) ∧
    (∃ v, (trainingEmits 0 e).getLast? = some v ∧ e ≤ v ∧ v < e + 10) := by
  refine ⟨sends_training env r d e h1 h2 h3, ?_, trainingEmits_chain 0 e,
    trainingEmits_dvd 0 e (dvd_zero 10), trainingEmits_last 0 e he⟩
  have := trainingEmits_head 0 e
  simpa using this

/-- Witness for C2 (amended) at epochs = 25. -/
theorem c2_amended_witness :
    reqTrain25.type = "rvc-start-training" ∧ reqTrain25.data = some dTrain25 ∧
    dTrain25.epochs = some (25 : Int) ∧ (0 : Int) < 25 ∧
    (sendsOf (traceOf env0 (.request reqTrain25)) =
      { type := "rvc-training-started", requestId := reqTrain25.requestId,
        payload := .trainingStarted env0.trainModelId dTrain25.modelName "training"
          (some 25) } ::
      ((trainingEmits 0 25).map (fun v =>
          ({ type := "rvc-training-progress",
             payload := .trainingProgress env0.trainModelId v (some 25) } : OutMsg)) ++
        [{ type := "rvc-training-complete",
           payload := .trainingComplete env0.trainModelId dTrain25.modelName "ready"
             ("models/" ++ env0.trainModelId ++ ".pth") }]) ∧
     (trainingEmits 0 25).head? = some 10 ∧
     (trainingEmits 0 25).Chain' (fun a b => b = a + 10) ∧
     (∀ v ∈ trainingEmits 0 25, (10 : Int) ∣ v) ∧
     (∃ v, (trainingEmits 0 25).getLast? = some v ∧ 25 ≤ v ∧ v < 25 + 10)) :=
  ⟨rfl, rfl, rfl, by norm_num,
   c2_amended env0 reqTrain25 dTrain25 25 rfl rfl rfl (by norm_num)⟩

/-- Claim C3: when the backend call fails, `voicevox-speakers` replies with
the fixed built-in fallback catalog and `voicevox-synthesis` replies with the
fixed built-in silent-audio payload tagged `mock := true`; each is a single
reply echoing the requestId, and neither is of type `error`. -/
theorem c3_fallback_no_error (env : Env) (r : Request) :
    (∀ e, env.speakersResult = .error e → r.type = "voicevox-speakers" →
       sendsOf (traceOf env (.request r)) =
         [{ type := "voicevox-speakers-response", requestId := r.requestId,
            payload := .speakers mockSpeakersCatalog }]) ∧
    (∀ d, r.type = "voicevox-synthesis" → r.data = some d →
       ((∃ e, env.audioQueryResult = .error e) ∨ (∃ e, env.synthResult = .error e)) →
       sendsOf (traceOf env (.request r)) =
         [{ type := "voicevox-synthesis-response", requestId := r.requestId,
            payload := .synthAudio ("data:audio/wav;base64," ++ mockWavB64)
              d.text d.speaker_id true }]) := by
  constructor
  · intro e he h1
    simp [traceOf, handleFrame, handleRequest, h1, he, expandEvent, sendsOf]
  · intro d h1 h2 herr
    rcases haq : env.audioQueryResult with e' | q
    · simp [traceOf, handleFrame, handleRequest, h1, h2, haq, expandEvent, sendsOf,
        mockSynthMsg]
    · rcases herr with ⟨e, he⟩ | ⟨e, he⟩
      · rw [haq] at he
        exact Except.noConfusion he
      · simp [traceOf, handleFrame, handleRequest, h1, h2, haq, he, expandEvent, sendsOf,
          mockSynthMsg]

/-- Witness for C3: with both backend calls failing (`env0`), the speakers
request gets the fallback catalog and the synthesis request gets the mock
audio, both echoing their requestIds. -/
theorem c3_witness :
    env0.speakersResult = .error err0 ∧
    (sendsOf (traceOf env0 (.request reqSpeakers)) =
      [{ type := "voicevox-speakers-response", requestId := reqSpeakers.requestId,
         payload := .speakers mockSpeakersCatalog }]) ∧
    (sendsOf (traceOf env0 (.request reqSynth)) =
      [{ type := "voicevox-synthesis-response", requestId := reqSynth.requestId,
         payload := .synthAudio ("data:audio/wav;base64," ++ mockWavB64)
           dSynth.text dSynth.speaker_id true }]) :=
  ⟨rfl,
   (c3_fallback_no_error env0 reqSpeakers).1 err0 rfl rfl,
   (c3_fallback_no_error env0 reqSynth).2 dSynth rfl rfl (Or.inl ⟨err0, rfl⟩)⟩

/-- Claim C4: a generic passthrough whose backend call fails yields exactly
one error reply echoing the requestId, carrying the backend status text
(`jsOr` falls back to the transport error message when the status text is
absent or empty) and, when present, the raw backend error body in
`details`. -/
theorem c4_pass_error (env : Env) (r : Request) (d : ReqData) (pl : PassPayload) (e : BErr)
    (h1 : r.type = "voicevox_request") (h2 : r.data = some d) (h3 : d.payload = some pl)
    (h4 : jsFalsy pl.endpoint = false) (h5 : env.passResult = .error e) :
    sendsOf (traceOf env (.request r)) =
      [{ type := "error", requestId := r.requestId,
         error := some ("VOICEVOX APIエラー: " ++ jsOr e.statusTextR e.message),
         details := e.dataR }] := by
  simp [traceOf, handleFrame, handleRequest, handlePass, h1, h2, h3, h4, h5,
    expandEvent, sendsOf]

/-- Witness for C4 at a 404-style failure with status text and error body. -/
theorem c4_pass_error_witness :
    reqPass.type = "voicevox_request" ∧ reqPass.data = some dPass ∧
    dPass.payload = some { endpoint := some "/version" } ∧
    jsFalsy (some "/version") = false ∧ env0.passResult = .error err404 ∧
    sendsOf (traceOf env0 (.request reqPass)) =
      [{ type := "error", requestId := reqPass.requestId,
         error := some ("VOICEVOX APIエラー: " ++ jsOr err404.statusTextR err404.message),
         details := err404.dataR }] :=
  ⟨rfl, rfl, rfl, rfl, rfl,
   c4_pass_error env0 reqPass dPass { endpoint := some "/version" } err404
     rfl rfl rfl rfl rfl⟩

/-- Claim C5: a generic passthrough whose payload has no endpoint field gets
exactly one immediate error reply echoing the requestId, and no backend HTTP
call is made. -/
theorem c5_missing_endpoint (env : Env) (r : Request) (d : ReqData)
    (h1 : r.type = "voicevox_request") (h2 : r.data = some d)
    (h3 : (d.payload.getD {}).endpoint = none) :
    traceOf env (.request r) =
      [.send { type := "error", error := some "エンドポイントが指定されていません",
               requestId := r.requestId }] ∧
    ∀ s, Event.callBackend s ∉ traceOf env (.request r) := by
  have h : traceOf env (.request r) =
      [.send { type := "error", error := some "エンドポイントが指定されていません",
               requestId := r.requestId }] := by
    simp [traceOf, handleFrame, handleRequest, handlePass, h1, h2, h3, jsFalsy,
      expandEvent]
  refine ⟨h, ?_⟩
  rw [h]
  intro s
  simp

/-- Witness for C5 with a payload object carrying no endpoint. -/
theorem c5_missing_endpoint_witness :
    reqPassMissing.type = "voicevox_request" ∧
    reqPassMissing.data = some dPassMissing ∧
    (dPassMissing.payload.getD {}).endpoint = none ∧
    (traceOf env0 (.request reqPassMissing) =
      [.send { type := "error", error := some "エンドポイントが指定されていません",
               requestId := reqPassMissing.requestId }] ∧
     ∀ s, Event.callBackend s ∉ traceOf env0 (.request reqPassMissing)) :=
  ⟨rfl, rfl, rfl, c5_missing_endpoint env0 reqPassMissing dPassMissing rfl rfl rfl⟩

/-- Claim C6: every failure during a frame's processing is caught at the
router boundary and becomes a single error reply without a requestId — both
for frames that are not valid JSON (`Frame.malformed`) and for an exception
escaping a handler case (`handleRequest _ _ = .error _`) — and the handler
never closes the connection, stops the listeners or exits the process. -/
theorem c6_router_boundary (env : Env) (f : Frame) :
    (∀ emsg, f = .malformed emsg →
       traceOf env f =
         [.send { type := "error", error := some ("メッセージ処理エラー: " ++ emsg) }]) ∧
    (∀ r emsg, f = .request r → handleRequest env r = .error emsg →
       traceOf env f =
         [.send { type := "error", error := some ("メッセージ処理エラー: " ++ emsg) }]) ∧
    (∀ c, Event.closeConn c ∉ traceOf env f) ∧
    Event.exitProcess ∉ traceOf env f ∧
    Event.stopAcceptWs ∉ traceOf env f ∧
    Event.stopAcceptHttp ∉ traceOf env f := by
  refine ⟨?_, ?_, ?_, ?_, ?_, ?_⟩
  · rintro emsg rfl
    simp [traceOf, handleFrame, expandEvent]
  · rintro r emsg rfl herr
    simp [traceOf, handleFrame, herr, expandEvent]
  · intro c hc
    cases f with
    | malformed emsg => simp [traceOf, handleFrame, expandEvent] at hc
    | request r =>
        have := routed_ok env r _ hc
        simp [routedEventOk] at this
  · intro hc
    cases f with
    | malformed emsg => simp [traceOf, handleFrame, expandEvent] at hc
    | request r =>
        have := routed_ok env r _ hc
        simp [routedEventOk] at this
  · intro hc
    cases f with
    | malformed emsg => simp [traceOf, handleFrame, expandEvent] at hc
    | request r =>
        have := routed_ok env r _ hc
        simp [routedEventOk] at this
  · intro hc
    cases f with
    | malformed emsg => simp [traceOf, handleFrame, expandEvent] at hc
    | request r =>
        have := routed_ok env r _ hc
        simp [routedEventOk] at this

/-- Witness for C6 at a malformed frame. -/
theorem c6_router_boundary_witness :
    traceOf env0 (.malformed "Unexpected token") =
      [.send { type := "error",
               error := some ("メッセージ処理エラー: " ++ "Unexpected token") }] :=
  (c6_router_boundary env0 (.malformed "Unexpected token")).1 "Unexpected token" rfl

/-- Claim C7: every message sent on the requesting connection either carries
no requestId or carries exactly the request's requestId; any message of a
push type (service-status, server-shutdown, training-progress,
training-complete, processing-complete) carries none; the periodic status
broadcast and the shutdown push carry none. -/
theorem c7_requestId_discipline (env : Env) (f : Frame) :
    (∀ m ∈ sendsOf (traceOf env f),
       (m.type ∈ pushTypes → m.requestId = none) ∧
       (∀ rid, m.requestId = some rid → ∃ r, f = .request r ∧ r.requestId = some rid)) ∧
    (∀ vv rvc ts, (serviceStatusMsg vv rvc ts).requestId = none) ∧
    serverShutdownMsg.requestId = none ∧
    (∀ clients rmOk c m, Event.sendTo c m ∈ shutdownTrace clients rmOk →
       m.requestId = none) := by
  refine ⟨?_, fun _ _ _ => rfl, rfl, ?_⟩
  · intro m hm
    cases f with
    | malformed emsg =>
        simp [traceOf, handleFrame, expandEvent, sendsOf] at hm
        subst hm
        simp [pushTypes]
    | request r =>
        have h := routed_ok env r _ (mem_sendsOf.mp hm)
        simp only [routedEventOk] at h
        obtain ⟨hor, hpush⟩ := h
        refine ⟨hpush, ?_⟩
        intro rid hrid
        rcases hor with hn | hr
        · rw [hn] at hrid
          exact Option.noConfusion hrid
        · exact ⟨r, rfl, hr ▸ hrid⟩
  · intro clients rmOk c m hm
    simp only [shutdownTrace, List.mem_append, List.mem_flatMap, List.mem_cons,
      List.not_mem_nil, or_false] at hm
    rcases hm with ⟨a, _, hm | hm⟩ | hm | hm | hm | hm
    · cases hm
      rfl
    · exact Event.noConfusion hm
    · exact Event.noConfusion hm
    · exact Event.noConfusion hm
    · exact Event.noConfusion hm
    · exact Event.noConfusion hm

/-- Witness for C7 at the pong reply to a ping. -/
theorem c7_requestId_discipline_witness :
    ({ type := "pong", requestId := some "p1", payload := .pong 0 } : OutMsg) ∈
      sendsOf (traceOf env0 (.request reqPing)) ∧
    ((({ type := "pong", requestId := some "p1", payload := .pong 0 } : OutMsg).type ∈
        pushTypes →
      ({ type := "pong", requestId := some "p1", payload := .pong 0 } : OutMsg).requestId =
        none) ∧
     (∀ rid,
        ({ type := "pong", requestId := some "p1", payload := .pong 0 } : OutMsg).requestId =
          some rid →
        ∃ r, Frame.request reqPing = Frame.request r ∧ r.requestId = some rid)) :=
  ⟨by decide,
   (c7_requestId_discipline env0 (.request reqPing)).1 _ (by decide)⟩

/-- Claim C8: an upload whose `fileData` is a well-formed base64 data URI of
a byte payload is written to storage (already base64-decoded) before the
immediate `rvc-upload-response` (status `processing`) is sent, and reading
the stored path back yields exactly the original payload, byte for byte and
hence of the same length. -/
theorem c8_upload_roundtrip (env : Env) (r : Request) (d : ReqData) (p payload : List Nat)
    (h1 : r.type = "rvc-upload-training-data") (h2 : r.data = some d)
    (h3 : d.fileData = some (p ++ 44 :: base64Encode payload))
    (hp : 44 ∉ p) (hb : ∀ b ∈ payload, b < 256)
    (h4 : env.writeResult = none) :
    traceOf env (.request r) =
      [.writeFile (storePath env (jsTemplate d.fileName)) payload,
       .send { type := "rvc-upload-response", requestId := r.requestId,
               payload := .uploadResp env.uploadRecId d.fileName
                 (storePath env (jsTemplate d.fileName)) d.fileSize "processing" },
       .send { type := "rvc-processing-complete",
               payload := .procComplete d.fileName "ready" env.procDuration }] ∧
    readStorage (traceOf env (.request r)) (storePath env (jsTemplate d.fileName)) =
      some payload ∧
    (readStorage (traceOf env (.request r))
        (storePath env (jsTemplate d.fileName))).map List.length =
      some payload.length := by
  have hsplit : (splitOnComma (p ++ 44 :: base64Encode payload))[1]? =
      some (base64Encode payload) := by
    rw [splitOnComma_split p (base64Encode payload) hp (comma_notin_base64Encode payload)]
    rfl
  have hdec : base64Decode (base64Encode payload) = payload := base64_roundtrip payload hb
  have htr : traceOf env (.request r) =
      [.writeFile (storePath env (jsTemplate d.fileName)) payload,
       .send { type := "rvc-upload-response", requestId := r.requestId,
               payload := .uploadResp env.uploadRecId d.fileName
                 (storePath env (jsTemplate d.fileName)) d.fileSize "processing" },
       .send { type := "rvc-processing-complete",
               payload := .procComplete d.fileName "ready" env.procDuration }] := by
    simp [traceOf, handleFrame, handleRequest, h1, h2, h3, h4, hsplit, hdec,
      expandEvent, timerPushes]
  refine ⟨htr, ?_, ?_⟩ <;> rw [htr] <;> simp [readStorage]

/-- Witness for C8 at a three-byte payload. -/
theorem c8_upload_roundtrip_witness :
    reqUp.type = "rvc-upload-training-data" ∧ reqUp.data = some dUp ∧
    dUp.fileData = some ([] ++ 44 :: base64Encode [1, 2, 3]) ∧
    (44 : Nat) ∉ ([] : List Nat) ∧ (∀ b ∈ [1, 2, 3], b < 256) ∧
    env0.writeResult = none ∧
    (traceOf env0 (.request reqUp) =
      [.writeFile (storePath env0 (jsTemplate dUp.fileName)) [1, 2, 3],
       .send { type := "rvc-upload-response", requestId := reqUp.requestId,
               payload := .uploadResp env0.uploadRecId dUp.fileName
                 (storePath env0 (jsTemplate dUp.fileName)) dUp.fileSize "processing" },
       .send { type := "rvc-processing-complete",
               payload := .procComplete dUp.fileName "ready" env0.procDuration }] ∧
     readStorage (traceOf env0 (.request reqUp))
         (storePath env0 (jsTemplate dUp.fileName)) = some [1, 2, 3] ∧
     (readStorage (traceOf env0 (.request reqUp))
         (storePath env0 (jsTemplate dUp.fileName))).map List.length =
       some ([1, 2, 3] : List Nat).length) :=
  ⟨rfl, rfl, rfl, by decide, by decide, rfl,
   c8_upload_roundtrip env0 reqUp dUp [] [1, 2, 3] rfl rfl rfl (by decide) (by decide) rfl⟩

/-- Claim C9, as stated, is false on the code: the shutdown loop interleaves
the push and the close per connection instead of broadcasting to all
connections first.  With two registered connections a and b, the close of a
(trace position 1) precedes the shutdown push to b (trace position 2); the
trace also differs from the all-pushes-then-all-closes order the claim
describes. -/
theorem c9_counterexample :
    (shutdownTrace ["a", "b"] true)[1]? = some (.closeConn "a") ∧
    (shutdownTrace ["a", "b"] true)[2]? = some (.sendTo "b" serverShutdownMsg) ∧
    shutdownTrace ["a", "b"] true ≠
      (["a", "b"].map (fun c => Event.sendTo c serverShutdownMsg) ++
        ["a", "b"].map Event.closeConn ++
        [.stopAcceptWs, .stopAcceptHttp, .removeUploads true, .exitProcess]) := by
  refine ⟨rfl, rfl, ?_⟩
  decide

/-- Claim C9 (amended): on shutdown, each registered connection receives the
server-shutdown push and is then immediately closed (push before close per
connection, connections handled in registration order); after all
connections are processed the listeners stop accepting, then the upload
storage is deleted best-effort, then the process exits — in this order,
whether or not the deletion succeeds. -/
theorem c9_amended (clients : List String) (rmOk : Bool) (c : String) (hc : c ∈ clients) :
    [Event.sendTo c serverShutdownMsg, .closeConn c, .stopAcceptWs, .stopAcceptHttp,
     .removeUploads rmOk, .exitProcess].Sublist (shutdownTrace clients rmOk) := by
  induction clients with
  | nil => cases hc
  | cons x xs ih =>
      rcases List.mem_cons.mp hc with rfl | hx
      · simp only [shutdownTrace, List.flatMap_cons, List.cons_append, List.nil_append]
        refine List.Sublist.cons₂ _ (List.Sublist.cons₂ _ ?_)
        exact List.sublist_append_right _ _
      · have h := ih hx
        simp only [shutdownTrace, List.flatMap_cons, List.cons_append] at h ⊢
        exact List.Sublist.cons _ (List.Sublist.cons _ h)

/-- Witness for C9 (amended) with one connection and a failing deletion. -/
theorem c9_amended_witness :
    "a" ∈ ["a"] ∧
    [Event.sendTo "a" serverShutdownMsg, .closeConn "a", .stopAcceptWs, .stopAcceptHttp,
     .removeUploads false, .exitProcess].Sublist (shutdownTrace ["a"] false) :=
  ⟨by decide, c9_amended ["a"] false "a" (by decide)⟩

/-- Claim C10: the `rvc-voice-conversion` handler never makes a backend call,
and for any request carrying a data object it replies with a single
conversion-response echoing the requestId, whose `convertedAudio` is
byte-for-byte the caller's `inputAudio`, whose `modelId` is the caller's,
and whose duration is the fixed 3.5 (`convDuration`). -/
theorem c10_conversion (env : Env) (r : Request) (h1 : r.type = "rvc-voice-conversion") :
    (∀ s, Event.callBackend s ∉ traceOf env (.request r)) ∧
    (∀ d, r.data = some d →
       traceOf env (.request r) =
         [.send { type := "rvc-conversion-response", requestId := r.requestId,
                  payload := .conversion d.inputAudio d.modelId convDuration }]) := by
  constructor
  · intro s
    rcases hd : r.data with _ | d
    · simp [traceOf, handleFrame, handleRequest, h1, hd, expandEvent]
    · simp [traceOf, handleFrame, handleRequest, h1, hd, expandEvent]
  · intro d hd
    simp [traceOf, handleFrame, handleRequest, h1, hd, expandEvent]

/-- Witness for C10 at a concrete conversion request. -/
theorem c10_conversion_witness :
    reqConv.type = "rvc-voice-conversion" ∧
    (∀ s, Event.callBackend s ∉ traceOf env0 (.request reqConv)) ∧
    (∀ d, reqConv.data = some d →
       traceOf env0 (.request reqConv) =
         [.send { type := "rvc-conversion-response", requestId := reqConv.requestId,
                  payload := .conversion d.inputAudio d.modelId convDuration }]) :=
  ⟨rfl, (c10_conversion env0 reqConv rfl).1, (c10_conversion env0 reqConv rfl).2⟩

end MioVo

